import Mathlib

set_option maxRecDepth 100000

/-!
Verification development for `scripts/traefik_manager.py`.

The script is a linear provisioning procedure.  We embed it shallowly:

* every external command invocation, interactive prompt, directory creation,
  file write, file read, log line and `sys.exit` becomes an explicit event
  (`Eff`) in a trace;
* the outcome of each external process and the text of each interactive
  answer are inputs (`Inputs`) to the model;
* stateful file writes/reads go through an explicit association-list file
  system (`FS`), threaded by the monad `M`;
* Python `str.strip`, `str.lower`, `str.split`, the `in` substring test,
  `shlex.quote` and the `sed -e s/\$/$$/g` filter used by `create_htpasswd`
  are modelled as executable pure functions on strings.

Cosmetic-only behaviour (ANSI colours of `print_message`, the bare `print`
calls that only display summaries, the `strftime` timestamp inside one
warning message, and the never-called `check_dns_resolution` helper) is not
part of the trace; every branching, ordering and file-content behaviour of
the source is.
-/

/-! ### Python string primitives -/

/-- Whitespace test used by the model of Python `str.strip`. -/
def isWs (c : Char) : Bool := c.isWhitespace

/-- Drop whitespace from the right end of a character list. -/
def stripEnd (l : List Char) : List Char := (l.reverse.dropWhile isWs).reverse

/-- Model of Python `str.strip()`: drop whitespace from both ends. -/
def pyStrip (s : String) : String := String.mk (stripEnd (s.data.dropWhile isWs))

/-- Model of Python `str.lower()` on ASCII input. -/
def pyLower (s : String) : String := String.mk (s.data.map Char.toLower)

/-- Does `needle` occur at the head of `l`? -/
def leadsWith : List Char → List Char → Bool
  | [], _ => true
  | _ :: _, [] => false
  | a :: n, b :: h => a == b && leadsWith n h

/-- Does `needle` occur anywhere inside `hay`?  (Python `needle in hay`.) -/
def containsSub : List Char → List Char → Bool
  | [], n => n.isEmpty
  | h :: t, n => leadsWith n (h :: t) || containsSub t n

/-- Model of the Python substring test `pat in s`. -/
def strContains (s pat : String) : Bool := containsSub s.data pat.data

/-- Model of Python `str.split()` with no argument: split on whitespace
runs and drop empty pieces. -/
def pySplit (s : String) : List String :=
  (s.split Char.isWhitespace).filter (fun t => t != "")

/-- Doubling of one character performed by `sed -e s/\$/$$/g`. -/
def doubleDollarChar (c : Char) : List Char :=
  if c = '$' then ['$', '$'] else [c]

/-- Model of the `sed -e s/\$/$$/g` filter in `create_htpasswd`: every
dollar sign of the input is doubled, all other characters are kept. -/
def sedDoubleDollar (s : String) : String :=
  String.mk (s.data.flatMap doubleDollarChar)

/-- Python f-string rendering of an optional value (`None` prints as
the text `None`). -/
def pyOpt : Option String → String
  | some s => s
  | none => "None"

/-- Characters `shlex.quote` considers safe: alphanumerics and the
punctuation `_ @ % + = : , . / -` (ASCII word chars plus that set). -/
def shlexSafeChar (c : Char) : Bool :=
  c.isAlpha || c.isDigit ||
    ['_', '@', '%', '+', '=', ':', ',', '.', '/', '-'].contains c

/-- Model of Python `shlex.quote`. -/
def shlexQuote (s : String) : String :=
  if s = "" then "\x27\x27"
  else if s.data.all shlexSafeChar then s
  else "\x27" ++ s.replace "\x27" "\x27\"\x27\"\x27" ++ "\x27"

/-! ### Global configuration constants of the script -/

def TRAEFIK_BASE_PATH : String := "/opt/traefik"
def TRAEFIK_CERTS_PATH : String := TRAEFIK_BASE_PATH ++ "/certs"
def TRAEFIK_DYNAMIC_PATH : String := TRAEFIK_BASE_PATH ++ "/dynamic"
def HTPASSWD_FILE : String := TRAEFIK_BASE_PATH ++ "/.htpasswd"
def COMPOSE_FILE : String := TRAEFIK_BASE_PATH ++ "/docker-compose.yml"
def TLS_FILE : String := TRAEFIK_DYNAMIC_PATH ++ "/tls.yaml"
def TEST_COMPOSE_PATH : String := "/tmp/traefik_test_page"
def TEST_SCRIPT_PATH : String := "/tmp/remove_test_page.sh"

/-! ### Events, command outcomes and the run monad -/

/-- Observable events of one run of the script. -/
inductive Eff where
  | runShell (cmd : String)
  | runArgs (args : List String)
  | prompt (msg : String)
  | mkdir (path : String)
  | writeFile (path : String) (content : String)
  | readFile (path : String)
  | log (state : String) (msg : String)
  | exitProc (code : Nat)
deriving DecidableEq

/-- Outcome of one external process invocation: success, a non-zero exit
(`subprocess.CalledProcessError`), or any other exception. -/
inductive CmdRes where
  | ok
  | err (msg : String)
  | exn (msg : String)
deriving DecidableEq

/-- The error log lines `run_command` emits for a given outcome. -/
def errLogs : CmdRes → List Eff
  | .ok => []
  | .err m => [.log "error" ("Command failed: " ++ m)]
  | .exn m => [.log "error" ("Unexpected error: " ++ m)]

/-- Boolean success of an outcome. -/
def cmdOk : CmdRes → Bool
  | .ok => true
  | _ => false

/-- The event describing how `subprocess.run` is invoked from
`run_command`: a shell string when `shell=True`, an argv list otherwise
(a plain string is whitespace-split first).  The `shell=True`-with-list
case occurs at no call site; it is rendered as the joined string. -/
def cmdEff (cmd : String ⊕ List String) (shell : Bool) : Eff :=
  match shell, cmd with
  | true, Sum.inl s => Eff.runShell s
  | true, Sum.inr l => Eff.runShell (String.intercalate " " l)
  | false, Sum.inl s => Eff.runArgs (pySplit s)
  | false, Sum.inr l => Eff.runArgs l

/-- Model of `run_command`: runs the command, catches both
`CalledProcessError` and every other exception, logs an error message in
those cases, and returns the success boolean.  It is a total function:
no outcome escapes it. -/
def run_command (cmd : String ⊕ List String) (shell : Bool) (res : CmdRes) :
    List Eff × Bool :=
  (cmdEff cmd shell :: errLogs res, cmdOk res)

/-- File system: an association list from path to content; the most
recent write is at the head. -/
def FS : Type := List (String × String)

def fsWrite (fs : FS) (p c : String) : FS := (p, c) :: fs

def fsRead (fs : FS) (p : String) : Option String :=
  (List.find? (fun e => e.1 = p) fs).map (fun e => e.2)

/-- Run monad: from a file system to (trace, new file system, normal
result or `sys.exit` code). -/
def M (α : Type) : Type := FS → List Eff × FS × Except Nat α

def mret {α : Type} (a : α) : M α := fun fs => ([], fs, .ok a)

def mbind {α β : Type} (x : M α) (f : α → M β) : M β := fun fs =>
  match x fs with
  | (t, fs2, .error c) => (t, fs2, .error c)
  | (t, fs2, .ok a) =>
    match f a fs2 with
    | (t2, fs3, r) => (t ++ t2, fs3, r)

def mseq {α β : Type} (x : M α) (y : M β) : M β := mbind x (fun _ => y)

def emit (e : Eff) : M Unit := fun fs => ([e], fs, .ok ())

def emits (l : List Eff) : M Unit := fun fs => (l, fs, .ok ())

/-- Model of `sys.exit code`. -/
def exitP {α : Type} (c : Nat) : M α := fun fs => ([.exitProc c], fs, .error c)

def writeF (p c : String) : M Unit := fun fs => ([.writeFile p c], fsWrite fs p c, .ok ())

/-- Read a file; a path never written reads as empty (the script only
reads `HTPASSWD_FILE`, after writing it). -/
def readF (p : String) : M String := fun fs =>
  ([.readFile p], fs, .ok ((fsRead fs p).getD ""))

/-! ### Inputs of one run -/

/-- Everything the environment feeds into one run: the text of every
interactive answer, the stdout the script inspects, and the outcome of
every external command. -/
structure Inputs where
  dockerVersionRes : CmdRes
  dockerInfoRes : CmdRes
  choiceInput : String
  domainInput : String
  emailInput : String
  cfEmailInput : String
  cfTokenInput : String
  dashUserInput : String
  dashPassInput : String
  whichHtpasswdRes : CmdRes
  htpasswdRaw : String
  opensslRes : CmdRes
  networkLsOut : String
  networkCreateRes : CmdRes
  composeUpRes : CmdRes
  testUpRes : CmdRes
  chmodRes : CmdRes
  nohupRes : CmdRes
  testDomainInput : String
  confirmInput : String
deriving DecidableEq

/-! ### The script, function by function -/

/-- `check_docker`: `docker --version` then `docker info`, exiting with
status 1 when either fails. -/
def check_docker (i : Inputs) : M Unit :=
  mseq (emit (Eff.log "status" "Checking Docker installation..."))
  (let r1 := run_command (Sum.inr ["docker", "--version"]) false i.dockerVersionRes
   mseq (emits r1.1)
   (if r1.2 = false then
      mseq (emit (Eff.log "error" "Docker is not installed. Please install Docker first."))
        (exitP 1)
    else
      let r2 := run_command (Sum.inr ["docker", "info"]) false i.dockerInfoRes
      mseq (emits r2.1)
      (if r2.2 = false then
         mseq (emit (Eff.log "error" "Docker daemon is not running. Please start Docker first."))
           (exitP 1)
       else
         emit (Eff.log "success" "Docker is installed and running"))))

/-- `ensure_dirs`: create the three Traefik directories. -/
def ensure_dirs : M Unit :=
  mseq (emit (Eff.mkdir TRAEFIK_BASE_PATH))
  (mseq (emit (Eff.mkdir TRAEFIK_CERTS_PATH))
  (mseq (emit (Eff.mkdir TRAEFIK_DYNAMIC_PATH))
  (emit (Eff.log "ok" "Created Traefik directories"))))

/-- The exact `openssl` shell command of `create_self_signed_cert`
(the Python source uses line continuations, so the indentation of the
continuation lines is part of the command string). -/
def opensslCmd (domain : String) : String :=
  "openssl req -x509 -nodes -days 365 -newkey rsa:2048 " ++
  "        -keyout " ++ TRAEFIK_CERTS_PATH ++ "/local.key " ++
  "        -out " ++ TRAEFIK_CERTS_PATH ++ "/local.crt " ++
  "        -subj \x27/CN=*." ++ domain ++ "\x27"

/-- `create_self_signed_cert`: one shell-out to OpenSSL, result ignored. -/
def create_self_signed_cert (domain : String) (i : Inputs) : M Unit :=
  mseq (emit (Eff.log "info" "Generating self-signed certificate for *.docker.localhost ..."))
  (let r := run_command (Sum.inl (opensslCmd domain)) true i.opensslRes
   mseq (emits r.1)
   (emit (Eff.log "ok" "Self-signed certificate created")))

/-- The `htpasswd -nb ... | sed ...` pipeline command string. -/
def htpasswdPipeline (user pass : String) : String :=
  "htpasswd -nb " ++ user ++ " \x27" ++ pass ++ "\x27 | sed -e \x27s/\\$/$$/g\x27"

/-- The value `create_htpasswd` stores: the pipeline stdout, stripped.
The pipeline stdout is the raw `htpasswd` output with every dollar sign
doubled by the `sed` filter. -/
def storedHash (raw : String) : String := pyStrip (sedDoubleDollar raw)

/-- `create_htpasswd`: prompt for credentials, exit 1 when the
`htpasswd` binary is absent, otherwise run the pipeline and store its
stripped stdout in `HTPASSWD_FILE`. -/
def create_htpasswd (i : Inputs) : M Unit :=
  mseq (emit (Eff.log "info" "Creating Basic Auth credentials for Traefik Dashboard..."))
  (mseq (emit (Eff.prompt "Enter dashboard username [admin]: "))
  (let user := if pyStrip i.dashUserInput = "" then "admin" else pyStrip i.dashUserInput
   mseq (emit (Eff.prompt "Enter dashboard password [P@ssw0rd]: "))
   (let password := if pyStrip i.dashPassInput = "" then "P@ssw0rd" else pyStrip i.dashPassInput
    let r := run_command (Sum.inl "which htpasswd") true i.whichHtpasswdRes
    mseq (emits r.1)
    (if r.2 = false then
       mseq (emit (Eff.log "err" "htpasswd not found! Install apache2-utils first."))
         (exitP 1)
     else
       mseq (emit (Eff.runShell (htpasswdPipeline user password)))
       (mseq (writeF HTPASSWD_FILE (storedHash i.htpasswdRaw))
       (emit (Eff.log "ok" ("Dashboard credentials created and stored in " ++ HTPASSWD_FILE))))))))

/-- Content of the dynamic TLS configuration file. -/
def tlsContent : String :=
  "tls:\n  certificates:\n    - certFile: /certs/local.crt\n      keyFile:  /certs/local.key\n"

/-- `create_dynamic_tls`. -/
def create_dynamic_tls : M Unit :=
  mseq (writeF TLS_FILE tlsContent)
  (emit (Eff.log "ok" ("Dynamic TLS config written to " ++ TLS_FILE)))

/-- `ask_for_resolver`: choose the certificate resolver and collect
domain/email/Cloudflare credentials.  The three bare `print` lines that
display the menu are cosmetic and not traced.  The final
`if choice == "1": domain = "docker.localhost"` of the source is the
identity (on that path `domain` already holds the default), so the
nested rendering below is behaviourally identical. -/
def ask_for_resolver (i : Inputs) :
    M (String × String × String × Option String × Option String) :=
  mseq (emit (Eff.prompt "Select resolver [1/2/3]: "))
  (let choice := pyStrip i.choiceInput
   if choice = "2" ∨ choice = "3" then
     mseq (emit (Eff.prompt "Enter your domain (e.g. example.com): "))
     (let domain := pyStrip i.domainInput
      if domain = "" then
        mseq (emit (Eff.log "err" "Domain name required for Let\x27s Encrypt/Cloudflare"))
          (exitP 1)
      else
        mseq (emit (Eff.prompt "Enter your email for Let\x27s Encrypt: "))
        (let email0 := pyStrip i.emailInput
         let email := if email0 = "" then "admin@" ++ domain else email0
         if choice = "3" then
           mseq (emit (Eff.prompt "Enter Cloudflare account email: "))
           (mseq (emit (Eff.prompt "Enter Cloudflare API Token: "))
           (mret (choice, domain, email, some (pyStrip i.cfEmailInput),
                  some (pyStrip i.cfTokenInput))))
         else
           mret (choice, domain, email, none, none)))
   else
     mret (choice, "docker.localhost", "admin@docker.localhost", none, none))

/-- `get_user_input`: the optional test-domain prompt.  This function is
never called by `main` in the source; it is embedded because the spec
describes the test page as optional. -/
def get_user_input (i : Inputs) : M (Option String) :=
  mseq (emit (Eff.log "status" "Traefik Setup Configuration"))
  (mseq (emit (Eff.prompt "Enter test domain/subdomain (optional, e.g., test.yourdomain.com): "))
  (let td := pyStrip i.testDomainInput
   if td = "" then mret none
   else
     mseq (emit (Eff.prompt "Test page will auto-remove after 10 minutes. Continue? (y/n): "))
     (let confirm := pyLower (pyStrip i.confirmInput)
      if confirm = "y" ∨ confirm = "yes" then mret (some td)
      else
        mseq (emit (Eff.log "status" "Setup cancelled."))
          (exitP 0))))

/-- Constant head of the Traefik compose template: everything before the
`resolver_config` splice point. -/
def composeHead : String :=
  "services:\n  traefik:\n    image: traefik:v3.4\n    container_name: traefik\n" ++
  "    restart: unless-stopped\n    security_opt:\n      - no-new-privileges:true\n" ++
  "    networks:\n      - proxy\n    ports:\n      - \"80:80\"\n      - \"443:443\"\n" ++
  "      - \"8080:8080\"\n    volumes:\n" ++
  "      - /var/run/docker.sock:/var/run/docker.sock:ro\n      - ./certs:/certs:ro\n" ++
  "      - ./dynamic:/dynamic:ro\n      - ./letsencrypt:/letsencrypt\n    command:\n" ++
  "      - \"--entrypoints.web.address=:80\"\n" ++
  "      - \"--entrypoints.web.http.redirections.entrypoint.to=websecure\"\n" ++
  "      - \"--entrypoints.web.http.redirections.entrypoint.scheme=https\"\n" ++
  "      - \"--entrypoints.web.http.redirections.entrypoint.permanent=true\"\n" ++
  "      - \"--entrypoints.websecure.address=:443\"\n" ++
  "      - \"--entrypoints.websecure.http.tls=true\"\n" ++
  "      - \"--providers.file.filename=/dynamic/tls.yaml\"\n" ++
  "      - \"--providers.docker=true\"\n" ++
  "      - \"--providers.docker.exposedbydefault=false\"\n" ++
  "      - \"--providers.docker.network=proxy\"\n" ++
  "      - \"--api.dashboard=true\"\n" ++
  "      - \"--api.insecure=false\"\n" ++
  "      - \"--log.level=INFO\"\n" ++
  "      - \"--accesslog=true\"\n" ++
  "      - \"--metrics.prometheus=true\""

/-- Constant pieces of the Let\x27s Encrypt resolver block. -/
def leA : String := "\n      - \"--certificatesresolvers.le.acme.email="

def leB : String :=
  "\"\n      - \"--certificatesresolvers.le.acme.storage=/letsencrypt/acme.json\"\n" ++
  "      - \"--certificatesresolvers.le.acme.httpchallenge.entrypoint=web\"\n" ++
  "      - \"--entrypoints.websecure.http.tls.certresolver=le\"\n"

/-- The Let\x27s Encrypt resolver block with the email interpolated. -/
def leResolverConfig (email : String) : String := leA ++ email ++ leB

/-- Constant pieces of the Cloudflare resolver block. -/
def cfA : String := "\n      - \"--certificatesresolvers.cf.acme.email="

def cfB : String :=
  "\"\n      - \"--certificatesresolvers.cf.acme.storage=/letsencrypt/acme.json\"\n" ++
  "      - \"--certificatesresolvers.cf.acme.dnschallenge.provider=cloudflare\"\n" ++
  "      - \"--certificatesresolvers.cf.acme.dnschallenge.delaybeforecheck=0\"\n" ++
  "      - \"--entrypoints.websecure.http.tls.certresolver=cf\"\n" ++
  "    environment:\n      - CF_API_EMAIL="

def cfC : String := "\n      - CF_DNS_API_TOKEN="

/-- The Cloudflare resolver block with email and credentials interpolated
(Python renders `None` as the literal text `None`). -/
def cfResolverConfig (email : String) (cfEmail cfToken : Option String) : String :=
  cfA ++ email ++ cfB ++ pyOpt cfEmail ++ cfC ++ pyOpt cfToken ++ "\n"

/-- The `resolver_config` value of `create_docker_compose`: empty except
for choices "2" and "3". -/
def resolver_config (choice email : String) (cfEmail cfToken : Option String) : String :=
  if choice = "2" then leResolverConfig email
  else if choice = "3" then cfResolverConfig email cfEmail cfToken
  else ""

/-- Constant pieces of the compose template after the splice point. -/
def composeTailA : String :=
  "\n    labels:\n      - \"traefik.enable=true\"\n" ++
  "      - \"traefik.http.routers.dashboard.rule=Host(`traefik."

def composeTailB : String :=
  "`)\"\n      - \"traefik.http.routers.dashboard.entrypoints=websecure\"\n" ++
  "      - \"traefik.http.routers.dashboard.service=api@internal\"\n" ++
  "      - \"traefik.http.routers.dashboard.tls=true\"\n" ++
  "      - \"traefik.http.middlewares.dashboard-auth.basicauth.users="

def composeTailC : String :=
  "\"\n      - \"traefik.http.routers.dashboard.middlewares=dashboard-auth@docker\"\n" ++
  "\nnetworks:\n  proxy:\n    name: proxy\n"

/-- Tail of the compose template with domain and auth hash interpolated. -/
def composeTail (domain auth : String) : String :=
  composeTailA ++ domain ++ composeTailB ++ auth ++ composeTailC

/-- The full generated Traefik compose document. -/
def composeText (choice domain email : String) (cfEmail cfToken : Option String)
    (auth : String) : String :=
  composeHead ++ resolver_config choice email cfEmail cfToken ++ composeTail domain auth

/-- `create_docker_compose`: read the htpasswd file back, strip it, and
write the templated compose file. -/
def create_docker_compose (choice domain email : String)
    (cfEmail cfToken : Option String) : M Unit :=
  mbind (readF HTPASSWD_FILE) (fun raw =>
    let auth := pyStrip raw
    mseq (writeF COMPOSE_FILE (composeText choice domain email cfEmail cfToken auth))
    (emit (Eff.log "ok" ("Docker Compose file created at " ++ COMPOSE_FILE))))

/-- Test page HTML content. -/
def testIndexHtml (d : String) : String :=
  "<h1>Traefik + Nginx Test Page</h1><p>Domain: test." ++ d ++ "</p>"

/-- Constant pieces of the test compose template.  The volume path is
`Path(TEST_COMPOSE_PATH).resolve()`; the model takes the already-absolute
path as its own resolution. -/
def tcA : String :=
  "version: \x273.8\x27\n\nservices:\n  nginx-test:\n    image: nginx:latest\n" ++
  "    container_name: nginx-test\n    restart: no\n    networks:\n      - traefik\n" ++
  "    volumes:\n      - " ++ TEST_COMPOSE_PATH ++ ":/usr/share/nginx/html:ro\n" ++
  "    labels:\n      - \"traefik.enable=true\"\n" ++
  "      - \"traefik.http.routers.nginx-test.rule=Host(`test."

def tcB : String :=
  "`)\"\n      - \"traefik.http.routers.nginx-test.entrypoints=websecure\"\n" ++
  "      - \"traefik.http.routers.nginx-test.tls.certresolver=letsencrypt\"\n" ++
  "\nnetworks:\n  traefik:\n    external: true\n    name: traefik\n"

/-- The full generated test compose document. -/
def testComposeContent (d : String) : String := tcA ++ d ++ tcB

/-- `create_test_compose`: skipped on a falsy domain, otherwise writes the
test directory, the HTML page and the test compose file. -/
def create_test_compose (domain : Option String) : M Unit :=
  match domain with
  | none => mret ()
  | some d =>
    if d = "" then mret ()
    else
      mseq (emit (Eff.mkdir TEST_COMPOSE_PATH))
      (mseq (writeF (TEST_COMPOSE_PATH ++ "/index.html") (testIndexHtml d))
      (mseq (writeF (TEST_COMPOSE_PATH ++ "/docker-compose-test.yml") (testComposeContent d))
      (emit (Eff.log "success" "Nginx test service configuration created with custom HTML page"))))

/-- The `docker network ls` invocation of `setup_docker_network`. -/
def networkLsArgs : List String :=
  ["docker", "network", "ls", "--format", "\x7b\x7b.Name\x7d\x7d"]

/-- The `docker network create traefik` invocation. -/
def networkCreateArgs : List String := ["docker", "network", "create", "traefik"]

/-- `setup_docker_network`: list networks; when the text `traefik` does
not occur in the output, create the network, else only warn. -/
def setup_docker_network (i : Inputs) : M Unit :=
  mseq (emit (Eff.log "status" "Setting up Docker network..."))
  (mseq (emit (Eff.runArgs networkLsArgs))
  (if strContains i.networkLsOut "traefik" = false then
     let r := run_command (Sum.inr networkCreateArgs) false i.networkCreateRes
     mseq (emits r.1)
     (if r.2 then emit (Eff.log "success" "Docker network \x27traefik\x27 created")
      else mret ())
   else
     emit (Eff.log "warning" "Docker network \x27traefik\x27 already exists")))

/-- The `docker compose up -d` invocation of `deploy_traefik`. -/
def composeUpArgs : List String :=
  ["docker", "compose", "-f", TRAEFIK_BASE_PATH ++ "/docker-compose.yml", "up", "-d"]

/-- `deploy_traefik`. -/
def deploy_traefik (i : Inputs) : M Unit :=
  mseq (emit (Eff.log "status" "Deploying Traefik..."))
  (let r := run_command (Sum.inr composeUpArgs) false i.composeUpRes
   mseq (emits r.1)
   (if r.2 then emit (Eff.log "success" "Traefik deployed successfully")
    else emit (Eff.log "error" "Failed to deploy Traefik")))

/-- The `docker compose up -d` invocation for the test page. -/
def testUpArgs : List String :=
  ["docker", "compose", "-f", TEST_COMPOSE_PATH ++ "/docker-compose-test.yml", "up", "-d"]

/-- The removal script `deploy_test_page` writes: sleep for 600 seconds,
take the test compose down, delete the test directory and the script
itself. -/
def removalScript : String :=
  "#!/bin/bash\nsleep 600\necho \"\"\necho \"⏰ Time is up! Removing test page...\"\n" ++
  "docker compose -f " ++ shlexQuote TEST_COMPOSE_PATH ++ "/docker-compose-test.yml down\n" ++
  "rm -rf " ++ shlexQuote TEST_COMPOSE_PATH ++ "\n" ++
  "rm -f " ++ shlexQuote TEST_SCRIPT_PATH ++ "\n" ++
  "echo \"✅ Test page removed successfully\"\n"

/-- The `chmod` command making the removal script executable. -/
def chmodCmd : String := "chmod +x " ++ TEST_SCRIPT_PATH

/-- The detached launch of the removal script: `nohup`, output discarded,
backgrounded. -/
def nohupCmd : String := "nohup " ++ TEST_SCRIPT_PATH ++ " > /dev/null 2>&1 &"

/-- `deploy_test_page`: skipped on a falsy domain; otherwise bring the
test compose up and, on success, write the removal script, mark it
executable and launch it detached.  The `strftime` timestamp inside the
final warning is real-clock output and is not part of the modelled
message. -/
def deploy_test_page (testDomain : Option String) (i : Inputs) : M Unit :=
  match testDomain with
  | none => mret ()
  | some d =>
    if d = "" then mret ()
    else
      mseq (emit (Eff.log "status" "Deploying test page (will auto-remove in 10 minutes)..."))
      (let r := run_command (Sum.inr testUpArgs) false i.testUpRes
       mseq (emits r.1)
       (if r.2 then
          mseq (emit (Eff.log "success" ("Test page deployed at https://" ++ d)))
          (mseq (writeF TEST_SCRIPT_PATH removalScript)
          (let r2 := run_command (Sum.inl chmodCmd) true i.chmodRes
           mseq (emits r2.1)
           (let r3 := run_command (Sum.inl nohupCmd) true i.nohupRes
            mseq (emits r3.1)
            (emit (Eff.log "warning" "Test page will auto-remove in 10 minutes")))))
        else mret ()))

/-- `display_final_info`: purely informational output; only the leading
status line is traced, the bare `print` summary lines are cosmetic. -/
def display_final_info (_domain : Option String) : M Unit :=
  emit (Eff.log "success" "Traefik setup completed!")

namespace Script

/-- `main`: the flat procedure, in source order.  Note that it passes the
resolver `domain` — not an optional test domain — to
`create_test_compose` and `deploy_test_page`, and never calls
`get_user_input`.  (Namespaced because a bare top-level `main` must be an
executable entry point in Lean.) -/
def main (i : Inputs) : M Unit :=
  mseq (emit (Eff.log "status" "Starting automated Traefik setup..."))
  (mseq (check_docker i)
  (mseq ensure_dirs
  (mbind (ask_for_resolver i) (fun v =>
    match v with
    | (choice, domain, email, cfEmail, cfToken) =>
      mseq (create_self_signed_cert domain i)
      (mseq (create_htpasswd i)
      (mseq create_dynamic_tls
      (mseq (create_docker_compose choice domain email cfEmail cfToken)
      (mseq (create_test_compose (some domain))
      (mseq (setup_docker_network i)
      (mseq (deploy_traefik i)
      (mseq (deploy_test_page (some domain) i)
      (mseq (display_final_info (some domain))
      (emit (Eff.log "success" "Setup complete! 🎉"))))))))))))))

end Script

/-- The event trace of one run of `main`, starting from an empty file
system. -/
def mainTrace (i : Inputs) : List Eff := (Script.main i []).1

/-- The termination status of one run of `main`: `.ok ()` for a normal
return, `.error c` for `sys.exit c`. -/
def mainExit (i : Inputs) : Except Nat Unit := (Script.main i []).2.2

/-! ### Derived values and trace predicates -/

/-- The resolver choice after stripping. -/
def choiceOf (i : Inputs) : String := pyStrip i.choiceInput

/-- Was an ACME choice ("2" or "3") selected? -/
def acmeChoice (i : Inputs) : Prop := choiceOf i = "2" ∨ choiceOf i = "3"

instance (i : Inputs) : Decidable (acmeChoice i) := by
  unfold acmeChoice; infer_instance

/-- The domain value `ask_for_resolver` returns. -/
def domainOf (i : Inputs) : String :=
  if acmeChoice i then pyStrip i.domainInput else "docker.localhost"

/-- The email value `ask_for_resolver` returns. -/
def emailOf (i : Inputs) : String :=
  if acmeChoice i then
    (if pyStrip i.emailInput = "" then "admin@" ++ pyStrip i.domainInput
     else pyStrip i.emailInput)
  else "admin@docker.localhost"

/-- The Cloudflare email value `ask_for_resolver` returns. -/
def cfEmailOf (i : Inputs) : Option String :=
  if choiceOf i = "3" then some (pyStrip i.cfEmailInput) else none

/-- The Cloudflare token value `ask_for_resolver` returns. -/
def cfTokenOf (i : Inputs) : Option String :=
  if choiceOf i = "3" then some (pyStrip i.cfTokenInput) else none

/-- Is an event an interactive prompt? -/
def isPrompt : Eff → Bool
  | .prompt _ => true
  | _ => false

/-- Is an event the `docker --version` availability check? -/
def isDockerVersionCheck : Eff → Bool
  | .runArgs a => a == ["docker", "--version"]
  | _ => false

/-- A run where every command succeeds and the user picks the
self-signed resolver, answering every prompt with the empty string. -/
def okInputs : Inputs where
  dockerVersionRes := .ok
  dockerInfoRes := .ok
  choiceInput := "1"
  domainInput := ""
  emailInput := ""
  cfEmailInput := ""
  cfTokenInput := ""
  dashUserInput := ""
  dashPassInput := ""
  whichHtpasswdRes := .ok
  htpasswdRaw := "admin:$apr1$abcdefgh$0123456789abcdefghijk\n"
  opensslRes := .ok
  networkLsOut := "bridge\nhost\nnone\n"
  networkCreateRes := .ok
  composeUpRes := .ok
  testUpRes := .ok
  chmodRes := .ok
  nohupRes := .ok
  testDomainInput := ""
  confirmInput := ""

/-- A run where `docker --version` fails. -/
def verFailInputs : Inputs := { okInputs with dockerVersionRes := .err "docker missing" }

/-- A run where `docker info` fails. -/
def infoFailInputs : Inputs := { okInputs with dockerInfoRes := .err "daemon down" }

/-- A run choosing an ACME resolver but entering a blank domain. -/
def domainFailInputs : Inputs := { okInputs with choiceInput := "2", domainInput := "   " }

/-- A run where the `htpasswd` binary is absent. -/
def htpFailInputs : Inputs := { okInputs with whichHtpasswdRes := .err "not found" }

/-- A run where the Docker network listing already shows `traefik`. -/
def netPresentInputs : Inputs := { okInputs with networkLsOut := "bridge\ntraefik\nhost\n" }

/-- A representative stored dashboard auth hash (dollars already doubled). -/
def sampleAuth : String := "admin:$$apr1$$abcdefgh$$0123456789abcdefghijk"

/-- The dashboard username after defaulting. -/
def userOf (i : Inputs) : String :=
  if pyStrip i.dashUserInput = "" then "admin" else pyStrip i.dashUserInput

/-- The dashboard password after defaulting. -/
def passOf (i : Inputs) : String :=
  if pyStrip i.dashPassInput = "" then "P@ssw0rd" else pyStrip i.dashPassInput

/-! ### Trace shapes of the individual steps (used in theorem statements) -/

/-- Trace of a successful `check_docker`. -/
def checkOkEffs : List Eff :=
  [.log "status" "Checking Docker installation...",
   .runArgs ["docker", "--version"], .runArgs ["docker", "info"],
   .log "success" "Docker is installed and running"]

/-- Trace of `ensure_dirs`. -/
def dirEffs : List Eff :=
  [.mkdir TRAEFIK_BASE_PATH, .mkdir TRAEFIK_CERTS_PATH, .mkdir TRAEFIK_DYNAMIC_PATH,
   .log "ok" "Created Traefik directories"]

/-- Trace of a successful `ask_for_resolver`. -/
def askEffs (i : Inputs) : List Eff :=
  [.prompt "Select resolver [1/2/3]: "] ++
  (if acmeChoice i then
     [Eff.prompt "Enter your domain (e.g. example.com): ",
      Eff.prompt "Enter your email for Let\x27s Encrypt: "] ++
     (if choiceOf i = "3" then
        [Eff.prompt "Enter Cloudflare account email: ",
         Eff.prompt "Enter Cloudflare API Token: "]
      else [])
   else [])

/-- Trace of `create_self_signed_cert`. -/
def certEffs (d : String) (i : Inputs) : List Eff :=
  [.log "info" "Generating self-signed certificate for *.docker.localhost ...",
   .runShell (opensslCmd d)] ++ errLogs i.opensslRes ++
  [.log "ok" "Self-signed certificate created"]

/-- Trace of a successful `create_htpasswd`. -/
def htpEffs (i : Inputs) : List Eff :=
  [.log "info" "Creating Basic Auth credentials for Traefik Dashboard...",
   .prompt "Enter dashboard username [admin]: ",
   .prompt "Enter dashboard password [P@ssw0rd]: ",
   .runShell "which htpasswd",
   .runShell (htpasswdPipeline (userOf i) (passOf i)),
   .writeFile HTPASSWD_FILE (storedHash i.htpasswdRaw),
   .log "ok" ("Dashboard credentials created and stored in " ++ HTPASSWD_FILE)]

/-- Trace of `create_dynamic_tls`. -/
def tlsEffs : List Eff :=
  [.writeFile TLS_FILE tlsContent,
   .log "ok" ("Dynamic TLS config written to " ++ TLS_FILE)]

/-- The compose document `main` actually writes (the auth hash read back
from the htpasswd file, stripped a second time). -/
def composeWriteContent (i : Inputs) : String :=
  composeText (choiceOf i) (domainOf i) (emailOf i) (cfEmailOf i) (cfTokenOf i)
    (pyStrip (storedHash i.htpasswdRaw))

/-- Trace of `create_docker_compose` inside `main`. -/
def composeEffs (i : Inputs) : List Eff :=
  [.readFile HTPASSWD_FILE,
   .writeFile COMPOSE_FILE (composeWriteContent i),
   .log "ok" ("Docker Compose file created at " ++ COMPOSE_FILE)]

/-- Trace of `create_test_compose` on a non-empty domain. -/
def testEffs (d : String) : List Eff :=
  [.mkdir TEST_COMPOSE_PATH,
   .writeFile (TEST_COMPOSE_PATH ++ "/index.html") (testIndexHtml d),
   .writeFile (TEST_COMPOSE_PATH ++ "/docker-compose-test.yml") (testComposeContent d),
   .log "success" "Nginx test service configuration created with custom HTML page"]

/-- Trace of `setup_docker_network`. -/
def netEffs (i : Inputs) : List Eff :=
  [.log "status" "Setting up Docker network...", .runArgs networkLsArgs] ++
  (if strContains i.networkLsOut "traefik" = false then
     [Eff.runArgs networkCreateArgs] ++ errLogs i.networkCreateRes ++
     (if cmdOk i.networkCreateRes then
        [Eff.log "success" "Docker network \x27traefik\x27 created"]
      else [])
   else [Eff.log "warning" "Docker network \x27traefik\x27 already exists"])

/-- Trace of `deploy_traefik`. -/
def deployEffs (i : Inputs) : List Eff :=
  [.log "status" "Deploying Traefik...", .runArgs composeUpArgs] ++
  errLogs i.composeUpRes ++
  [if cmdOk i.composeUpRes then Eff.log "success" "Traefik deployed successfully"
   else Eff.log "error" "Failed to deploy Traefik"]

/-- Trace of `deploy_test_page` on a non-empty domain. -/
def testDeployEffs (d : String) (i : Inputs) : List Eff :=
  [.log "status" "Deploying test page (will auto-remove in 10 minutes)...",
   .runArgs testUpArgs] ++ errLogs i.testUpRes ++
  (if cmdOk i.testUpRes then
     [Eff.log "success" ("Test page deployed at https://" ++ d),
      Eff.writeFile TEST_SCRIPT_PATH removalScript,
      Eff.runShell chmodCmd] ++ errLogs i.chmodRes ++
     [Eff.runShell nohupCmd] ++ errLogs i.nohupRes ++
     [Eff.log "warning" "Test page will auto-remove in 10 minutes"]
   else [])

/-- File-system effect of `deploy_test_page`. -/
def testDeployFs (i : Inputs) (fs : FS) : FS :=
  if cmdOk i.testUpRes then fsWrite fs TEST_SCRIPT_PATH removalScript else fs

/-- Closing trace of `main`. -/
def finalEffs : List Eff :=
  [.log "success" "Traefik setup completed!", .log "success" "Setup complete! 🎉"]

/-- The full trace of a run of `main` in which neither Docker check, the
domain check, nor the `htpasswd` check exits. -/
def mainOkEffs (i : Inputs) : List Eff :=
  [Eff.log "status" "Starting automated Traefik setup..."] ++ checkOkEffs ++ dirEffs ++
  askEffs i ++ certEffs (domainOf i) i ++ htpEffs i ++ tlsEffs ++ composeEffs i ++
  testEffs (domainOf i) ++ netEffs i ++ deployEffs i ++ testDeployEffs (domainOf i) i ++
  finalEffs

/-- The final file system of such a run. -/
def mainOkFs (i : Inputs) : FS :=
  testDeployFs i
    (fsWrite
      (fsWrite
        (fsWrite
          (fsWrite
            (fsWrite [] HTPASSWD_FILE (storedHash i.htpasswdRaw))
            TLS_FILE tlsContent)
          COMPOSE_FILE (composeWriteContent i))
        (TEST_COMPOSE_PATH ++ "/index.html") (testIndexHtml (domainOf i)))
      (TEST_COMPOSE_PATH ++ "/docker-compose-test.yml") (testComposeContent (domainOf i)))

/-- Trace of a run stopped by a failing `docker --version`. -/
def mainVerFailEffs (i : Inputs) : List Eff :=
  [Eff.log "status" "Starting automated Traefik setup...",
   Eff.log "status" "Checking Docker installation...",
   Eff.runArgs ["docker", "--version"]] ++ errLogs i.dockerVersionRes ++
  [Eff.log "error" "Docker is not installed. Please install Docker first.",
   Eff.exitProc 1]

/-- Trace of a run stopped by a failing `docker info`. -/
def mainInfoFailEffs (i : Inputs) : List Eff :=
  [Eff.log "status" "Starting automated Traefik setup...",
   Eff.log "status" "Checking Docker installation...",
   Eff.runArgs ["docker", "--version"], Eff.runArgs ["docker", "info"]] ++
  errLogs i.dockerInfoRes ++
  [Eff.log "error" "Docker daemon is not running. Please start Docker first.",
   Eff.exitProc 1]

/-- Trace of a run stopped by a blank domain for an ACME choice. -/
def mainDomainFailEffs : List Eff :=
  [Eff.log "status" "Starting automated Traefik setup..."] ++ checkOkEffs ++ dirEffs ++
  [Eff.prompt "Select resolver [1/2/3]: ",
   Eff.prompt "Enter your domain (e.g. example.com): ",
   Eff.log "err" "Domain name required for Let\x27s Encrypt/Cloudflare",
   Eff.exitProc 1]

/-- Trace of a run stopped by a missing `htpasswd` binary. -/
def mainHtpFailEffs (i : Inputs) : List Eff :=
  [Eff.log "status" "Starting automated Traefik setup..."] ++ checkOkEffs ++ dirEffs ++
  askEffs i ++ certEffs (domainOf i) i ++
  [Eff.log "info" "Creating Basic Auth credentials for Traefik Dashboard...",
   Eff.prompt "Enter dashboard username [admin]: ",
   Eff.prompt "Enter dashboard password [P@ssw0rd]: ",
   Eff.runShell "which htpasswd"] ++ errLogs i.whichHtpasswdRes ++
  [Eff.log "err" "htpasswd not found! Install apache2-utils first.",
   Eff.exitProc 1]

/-! ### Calculation lemmas for the run monad -/

theorem mbind_assoc {α β γ : Type} (x : M α) (f : α → M β) (g : β → M γ) :
    mbind (mbind x f) g = mbind x (fun a => mbind (f a) g) := by
  funext fs
  simp only [mbind]
  rcases hx : x fs with ⟨t, fs2, r⟩
  cases r with
  | error c => rfl
  | ok a =>
    rcases hy : f a fs2 with ⟨t2, fs3, r2⟩
    cases r2 with
    | error c => simp [hy]
    | ok b =>
      rcases hz : g b fs3 with ⟨t3, fs4, r3⟩
      simp [hy, hz]

theorem mseq_assoc {α β γ : Type} (x : M α) (y : M β) (z : M γ) :
    mseq (mseq x y) z = mseq x (mseq y z) := by
  unfold mseq
  rw [mbind_assoc]

theorem mseq_emit_apply {β : Type} (e : Eff) (y : M β) (fs : FS) :
    mseq (emit e) y fs = (e :: (y fs).1, (y fs).2) := by
  unfold mseq mbind emit
  rcases h : y fs with ⟨t, fs2, r⟩
  simp [h]

theorem mseq_emits_apply {β : Type} (l : List Eff) (y : M β) (fs : FS) :
    mseq (emits l) y fs = (l ++ (y fs).1, (y fs).2) := by
  unfold mseq mbind emits
  rcases h : y fs with ⟨t, fs2, r⟩
  simp [h]

theorem mseq_writeF_apply {β : Type} (p c : String) (y : M β) (fs : FS) :
    mseq (writeF p c) y fs =
      (Eff.writeFile p c :: (y (fsWrite fs p c)).1, (y (fsWrite fs p c)).2) := by
  unfold mseq mbind writeF
  rcases h : y (fsWrite fs p c) with ⟨t, fs2, r⟩
  simp [h]

theorem mbind_readF_apply {β : Type} (p : String) (f : String → M β) (fs : FS) :
    mbind (readF p) f fs =
      (Eff.readFile p :: (f ((fsRead fs p).getD "") fs).1,
       (f ((fsRead fs p).getD "") fs).2) := by
  unfold mbind readF
  rcases h : f ((fsRead fs p).getD "") fs with ⟨t, fs2, r⟩
  simp [h]

theorem mseq_mret_apply {α β : Type} (a : α) (y : M β) (fs : FS) :
    mseq (mret a) y fs = y fs := by
  unfold mseq mbind mret
  rcases h : y fs with ⟨t, fs2, r⟩
  simp [h]

theorem mbind_mret_apply {α β : Type} (a : α) (f : α → M β) (fs : FS) :
    mbind (mret a) f fs = f a fs := by
  unfold mbind mret
  rcases h : f a fs with ⟨t, fs2, r⟩
  simp [h]

theorem cmdOk_true_iff (r : CmdRes) : cmdOk r = true ↔ r = .ok := by
  cases r <;> simp [cmdOk]

theorem cmdOk_ok : cmdOk .ok = true := rfl

theorem errLogs_ok : errLogs .ok = [] := rfl

theorem errLogs_mem {e : Eff} {r : CmdRes} (h : e ∈ errLogs r) :
    ∃ m, e = Eff.log "error" m := by
  cases r with
  | ok => simp [errLogs] at h
  | err m => simp [errLogs] at h; exact ⟨_, h⟩
  | exn m => simp [errLogs] at h; exact ⟨_, h⟩

/-! ### Behaviour of the individual steps -/

theorem fsRead_hit (fs : FS) (p c : String) : fsRead (fsWrite fs p c) p = some c := by
  simp [fsRead, fsWrite, List.find?]

theorem fsRead_skip {p q : String} (fs : FS) (c : String) (h : (p = q) = False) :
    fsRead (fsWrite fs p c) q = fsRead fs q := by
  simp [fsRead, fsWrite, List.find?, h]

theorem check_docker_ok (i : Inputs) (hv : i.dockerVersionRes = .ok)
    (hi : i.dockerInfoRes = .ok) (fs : FS) :
    check_docker i fs = (checkOkEffs, fs, .ok ()) := by
  simp [check_docker, checkOkEffs, mseq, mbind, emit, emits, run_command, cmdEff,
    errLogs, cmdOk, hv, hi]

theorem check_docker_verFail (i : Inputs) (hv : cmdOk i.dockerVersionRes = false)
    (fs : FS) :
    check_docker i fs =
      ([Eff.log "status" "Checking Docker installation...",
        Eff.runArgs ["docker", "--version"]] ++ errLogs i.dockerVersionRes ++
       [Eff.log "error" "Docker is not installed. Please install Docker first.",
        Eff.exitProc 1], fs, .error 1) := by
  simp [check_docker, mseq, mbind, emit, emits, exitP, run_command, cmdEff, hv]

theorem check_docker_infoFail (i : Inputs) (hv : i.dockerVersionRes = .ok)
    (hi : cmdOk i.dockerInfoRes = false) (fs : FS) :
    check_docker i fs =
      ([Eff.log "status" "Checking Docker installation...",
        Eff.runArgs ["docker", "--version"], Eff.runArgs ["docker", "info"]] ++
       errLogs i.dockerInfoRes ++
       [Eff.log "error" "Docker daemon is not running. Please start Docker first.",
        Eff.exitProc 1], fs, .error 1) := by
  simp [check_docker, mseq, mbind, emit, emits, exitP, run_command, cmdEff,
    errLogs_ok, cmdOk_ok, hv, hi]

theorem ensure_dirs_eq (fs : FS) : ensure_dirs fs = (dirEffs, fs, .ok ()) := by
  simp [ensure_dirs, dirEffs, mseq, mbind, emit]

theorem cert_eq (d : String) (i : Inputs) (fs : FS) :
    create_self_signed_cert d i fs = (certEffs d i, fs, .ok ()) := by
  simp [create_self_signed_cert, certEffs, mseq, mbind, emit, emits, run_command, cmdEff]

theorem ask_resolver_ok (i : Inputs) (h : acmeChoice i → pyStrip i.domainInput ≠ "")
    (fs : FS) :
    ask_for_resolver i fs =
      (askEffs i, fs, .ok (choiceOf i, domainOf i, emailOf i, cfEmailOf i, cfTokenOf i)) := by
  by_cases hac : acmeChoice i
  · have hdom : (pyStrip i.domainInput = "") = False := by
      simp [h hac]
    have hac2 : (pyStrip i.choiceInput = "2" ∨ pyStrip i.choiceInput = "3") := hac
    by_cases h3 : pyStrip i.choiceInput = "3"
    · simp [ask_for_resolver, askEffs, choiceOf, domainOf, emailOf, cfEmailOf, cfTokenOf,
        acmeChoice, mseq, mbind, emit, mret, hac2, hdom, h3]
    · have h2 : pyStrip i.choiceInput = "2" := hac2.resolve_right h3
      simp [ask_for_resolver, askEffs, choiceOf, domainOf, emailOf, cfEmailOf, cfTokenOf,
        acmeChoice, mseq, mbind, emit, mret, hac2, hdom, h2, h3]
  · have hac2 : ¬ (pyStrip i.choiceInput = "2" ∨ pyStrip i.choiceInput = "3") := hac
    have h3 : ¬ pyStrip i.choiceInput = "3" := fun hx => hac2 (Or.inr hx)
    have h2 : ¬ pyStrip i.choiceInput = "2" := fun hx => hac2 (Or.inl hx)
    simp [ask_for_resolver, askEffs, choiceOf, domainOf, emailOf, cfEmailOf, cfTokenOf,
      acmeChoice, mseq, mbind, emit, mret, hac2, h2, h3]

theorem ask_resolver_domainFail (i : Inputs) (hac : acmeChoice i)
    (hd : pyStrip i.domainInput = "") (fs : FS) :
    ask_for_resolver i fs =
      ([Eff.prompt "Select resolver [1/2/3]: ",
        Eff.prompt "Enter your domain (e.g. example.com): ",
        Eff.log "err" "Domain name required for Let\x27s Encrypt/Cloudflare",
        Eff.exitProc 1], fs, .error 1) := by
  have hac2 : (pyStrip i.choiceInput = "2" ∨ pyStrip i.choiceInput = "3") := hac
  simp [ask_for_resolver, mseq, mbind, emit, exitP, hac2, hd]

theorem create_htpasswd_ok (i : Inputs) (hw : i.whichHtpasswdRes = .ok) (fs : FS) :
    create_htpasswd i fs =
      (htpEffs i, fsWrite fs HTPASSWD_FILE (storedHash i.htpasswdRaw), .ok ()) := by
  simp [create_htpasswd, htpEffs, userOf, passOf, mseq, mbind, emit, emits, writeF,
    run_command, cmdEff, errLogs_ok, cmdOk_ok, hw]

theorem create_htpasswd_fail (i : Inputs) (hw : cmdOk i.whichHtpasswdRes = false)
    (fs : FS) :
    create_htpasswd i fs =
      ([Eff.log "info" "Creating Basic Auth credentials for Traefik Dashboard...",
        Eff.prompt "Enter dashboard username [admin]: ",
        Eff.prompt "Enter dashboard password [P@ssw0rd]: ",
        Eff.runShell "which htpasswd"] ++ errLogs i.whichHtpasswdRes ++
       [Eff.log "err" "htpasswd not found! Install apache2-utils first.",
        Eff.exitProc 1], fs, .error 1) := by
  simp [create_htpasswd, mseq, mbind, emit, emits, exitP, run_command, cmdEff, hw]

theorem create_dynamic_tls_eq (fs : FS) :
    create_dynamic_tls fs = (tlsEffs, fsWrite fs TLS_FILE tlsContent, .ok ()) := by
  simp [create_dynamic_tls, tlsEffs, mseq, mbind, emit, writeF]

theorem create_docker_compose_read (c d e : String) (ce ct : Option String)
    {fs : FS} {st : String} (h : fsRead fs HTPASSWD_FILE = some st) :
    create_docker_compose c d e ce ct fs =
      ([Eff.readFile HTPASSWD_FILE,
        Eff.writeFile COMPOSE_FILE (composeText c d e ce ct (pyStrip st)),
        Eff.log "ok" ("Docker Compose file created at " ++ COMPOSE_FILE)],
       fsWrite fs COMPOSE_FILE (composeText c d e ce ct (pyStrip st)), .ok ()) := by
  simp [create_docker_compose, mseq, mbind, emit, writeF, readF, h]

theorem create_test_compose_some {d : String} (hd : (d = "") = False) (fs : FS) :
    create_test_compose (some d) fs =
      (testEffs d,
       fsWrite (fsWrite fs (TEST_COMPOSE_PATH ++ "/index.html") (testIndexHtml d))
         (TEST_COMPOSE_PATH ++ "/docker-compose-test.yml") (testComposeContent d),
       .ok ()) := by
  simp [create_test_compose, testEffs, mseq, mbind, emit, writeF, hd]

theorem setup_docker_network_eq (i : Inputs) (fs : FS) :
    setup_docker_network i fs = (netEffs i, fs, .ok ()) := by
  by_cases hc : strContains i.networkLsOut "traefik" = false
  · by_cases hk : cmdOk i.networkCreateRes = true
    · simp [setup_docker_network, netEffs, mseq, mbind, emit, emits, mret,
        run_command, cmdEff, hc, hk]
    · simp [setup_docker_network, netEffs, mseq, mbind, emit, emits, mret,
        run_command, cmdEff, hc, hk]
  · simp [setup_docker_network, netEffs, mseq, mbind, emit, emits, mret,
      run_command, cmdEff, hc]

theorem deploy_traefik_eq (i : Inputs) (fs : FS) :
    deploy_traefik i fs = (deployEffs i, fs, .ok ()) := by
  by_cases hk : cmdOk i.composeUpRes = true
  · simp [deploy_traefik, deployEffs, mseq, mbind, emit, emits, run_command, cmdEff, hk]
  · simp [deploy_traefik, deployEffs, mseq, mbind, emit, emits, run_command, cmdEff, hk]

theorem deploy_test_page_some {d : String} (hd : (d = "") = False) (i : Inputs)
    (fs : FS) :
    deploy_test_page (some d) i fs = (testDeployEffs d i, testDeployFs i fs, .ok ()) := by
  by_cases hk : cmdOk i.testUpRes = true
  · simp [deploy_test_page, testDeployEffs, testDeployFs, mseq, mbind, emit, emits,
      writeF, mret, run_command, cmdEff, hd, hk]
  · simp [deploy_test_page, testDeployEffs, testDeployFs, mseq, mbind, emit, emits,
      writeF, mret, run_command, cmdEff, hd, hk]

theorem domainOf_ne (i : Inputs) (h : acmeChoice i → pyStrip i.domainInput ≠ "") :
    (domainOf i = "") = False := by
  by_cases hac : acmeChoice i
  · simp [domainOf, hac, h hac]
  · simp [domainOf, hac]

theorem create_docker_compose_shape (c d e : String) (ce ct : Option String)
    (fs0 : FS) (st tc : String) :
    create_docker_compose c d e ce ct (fsWrite (fsWrite fs0 HTPASSWD_FILE st) TLS_FILE tc) =
      ([Eff.readFile HTPASSWD_FILE,
        Eff.writeFile COMPOSE_FILE (composeText c d e ce ct (pyStrip st)),
        Eff.log "ok" ("Docker Compose file created at " ++ COMPOSE_FILE)],
       fsWrite (fsWrite (fsWrite fs0 HTPASSWD_FILE st) TLS_FILE tc) COMPOSE_FILE
         (composeText c d e ce ct (pyStrip st)), .ok ()) := by
  have hne : ¬ (TLS_FILE = HTPASSWD_FILE) := by decide
  have h : fsRead (fsWrite (fsWrite fs0 HTPASSWD_FILE st) TLS_FILE tc) HTPASSWD_FILE
      = some st := by
    simp [fsRead, fsWrite, List.find?, hne]
  exact create_docker_compose_read c d e ce ct h

theorem main_ok (i : Inputs) (hv : i.dockerVersionRes = .ok) (hi : i.dockerInfoRes = .ok)
    (hw : i.whichHtpasswdRes = .ok) (h : acmeChoice i → pyStrip i.domainInput ≠ "") :
    Script.main i [] = (mainOkEffs i, mainOkFs i, .ok ()) := by
  have hdom := domainOf_ne i h
  simp [Script.main, mainOkEffs, mainOkFs, composeWriteContent, composeEffs, finalEffs,
    mseq, mbind, emit,
    check_docker_ok i hv hi, ensure_dirs_eq, ask_resolver_ok i h, cert_eq,
    create_htpasswd_ok i hw, create_dynamic_tls_eq, create_docker_compose_shape,
    create_test_compose_some hdom, setup_docker_network_eq, deploy_traefik_eq,
    deploy_test_page_some hdom, display_final_info]

theorem main_verFail (i : Inputs) (hv : cmdOk i.dockerVersionRes = false) :
    Script.main i [] = (mainVerFailEffs i, [], .error 1) := by
  simp [Script.main, mainVerFailEffs, mseq, mbind, emit, check_docker_verFail i hv]

theorem main_infoFail (i : Inputs) (hv : i.dockerVersionRes = .ok)
    (hi : cmdOk i.dockerInfoRes = false) :
    Script.main i [] = (mainInfoFailEffs i, [], .error 1) := by
  simp [Script.main, mainInfoFailEffs, mseq, mbind, emit, check_docker_infoFail i hv hi]

theorem main_domainFail (i : Inputs) (hv : i.dockerVersionRes = .ok)
    (hi : i.dockerInfoRes = .ok) (hac : acmeChoice i)
    (hd : pyStrip i.domainInput = "") :
    Script.main i [] = (mainDomainFailEffs, [], .error 1) := by
  simp [Script.main, mainDomainFailEffs, mseq, mbind, emit,
    check_docker_ok i hv hi, ensure_dirs_eq, ask_resolver_domainFail i hac hd]

theorem main_htpFail (i : Inputs) (hv : i.dockerVersionRes = .ok)
    (hi : i.dockerInfoRes = .ok) (h : acmeChoice i → pyStrip i.domainInput ≠ "")
    (hw : cmdOk i.whichHtpasswdRes = false) :
    Script.main i [] = (mainHtpFailEffs i, [], .error 1) := by
  simp [Script.main, mainHtpFailEffs, mseq, mbind, emit,
    check_docker_ok i hv hi, ensure_dirs_eq, ask_resolver_ok i h, cert_eq,
    create_htpasswd_fail i hw]

/-! ### String lemmas -/

theorem dropWhile_idem (p : Char → Bool) (l : List Char) :
    (l.dropWhile p).dropWhile p = l.dropWhile p := by
  induction l with
  | nil => rfl
  | cons a t ih =>
    by_cases h : p a
    · simp [List.dropWhile_cons, h, ih]
    · simp [List.dropWhile_cons, h]

theorem dropWhile_fix_of_pre (p : Char → Bool) {l1 l2 : List Char}
    (hp : l1 <+: l2) (hf : l2.dropWhile p = l2) : l1.dropWhile p = l1 := by
  cases l1 with
  | nil => rfl
  | cons a t =>
    obtain ⟨r, hr⟩ := hp
    rw [List.dropWhile_eq_self_iff] at hf
    have h0 : 0 < l2.length := by rw [← hr]; simp
    have ha := hf h0
    have hget : l2.get ⟨0, h0⟩ = a := by
      have : l2 = a :: (t ++ r) := by rw [← hr]; simp
      subst this
      rfl
    rw [hget] at ha
    simp only [Bool.not_eq_true] at ha
    simp [List.dropWhile_cons, ha]

theorem stripEnd_isPre (l : List Char) : stripEnd l <+: l := by
  refine ⟨(l.reverse.takeWhile isWs).reverse, ?_⟩
  unfold stripEnd
  rw [← List.reverse_append, List.takeWhile_append_dropWhile, List.reverse_reverse]

theorem stripEnd_idem (l : List Char) : stripEnd (stripEnd l) = stripEnd l := by
  unfold stripEnd
  rw [List.reverse_reverse, dropWhile_idem]

theorem pyStrip_idem (s : String) : pyStrip (pyStrip s) = pyStrip s := by
  unfold pyStrip
  have hdata : (String.mk (stripEnd (s.data.dropWhile isWs))).data
      = stripEnd (s.data.dropWhile isWs) := rfl
  rw [hdata]
  have hfix : (stripEnd (s.data.dropWhile isWs)).dropWhile isWs
      = stripEnd (s.data.dropWhile isWs) :=
    dropWhile_fix_of_pre isWs (stripEnd_isPre _) (dropWhile_idem isWs s.data)
  rw [hfix, stripEnd_idem]

theorem storedHash_stripped (raw : String) : pyStrip (storedHash raw) = storedHash raw := by
  unfold storedHash
  exact pyStrip_idem _

theorem sedList_count (l : List Char) :
    (l.flatMap doubleDollarChar).count '$' = 2 * l.count '$' := by
  induction l with
  | nil => rfl
  | cons a t ih =>
    rw [List.flatMap_cons, List.count_append, ih]
    by_cases h : a = '$'
    · simp [doubleDollarChar, h, List.count_cons]
      ring
    · simp [doubleDollarChar, h, List.count_cons]

theorem sedList_filter (l : List Char) :
    (l.flatMap doubleDollarChar).filter (fun c => c != '$')
      = l.filter (fun c => c != '$') := by
  induction l with
  | nil => rfl
  | cons a t ih =>
    rw [List.flatMap_cons, List.filter_append, ih]
    by_cases h : a = '$'
    · simp [doubleDollarChar, h]
    · simp [doubleDollarChar, h]

theorem sed_count (s : String) :
    (sedDoubleDollar s).data.count '$' = 2 * s.data.count '$' :=
  sedList_count s.data

theorem sed_filter (s : String) :
    (sedDoubleDollar s).data.filter (fun c => c != '$')
      = s.data.filter (fun c => c != '$') :=
  sedList_filter s.data

theorem leadsWith_append (n : List Char) : ∀ (l t : List Char),
    leadsWith n l = true → leadsWith n (l ++ t) = true := by
  induction n with
  | nil => intro l t _; rfl
  | cons a n ih =>
    intro l t h
    cases l with
    | nil => simp [leadsWith] at h
    | cons b l2 =>
      simp only [leadsWith, Bool.and_eq_true] at h
      simp only [List.cons_append, leadsWith, Bool.and_eq_true]
      exact ⟨h.1, ih l2 t h.2⟩

theorem containsSub_nil_needle (t : List Char) : containsSub t [] = true := by
  cases t <;> simp [containsSub, leadsWith, List.isEmpty]

theorem containsSub_append_left (s t n : List Char) (h : containsSub s n = true) :
    containsSub (s ++ t) n = true := by
  induction s with
  | nil =>
    cases n with
    | nil => simpa using containsSub_nil_needle t
    | cons a m => simp [containsSub, List.isEmpty] at h
  | cons a s ih =>
    simp only [containsSub, Bool.or_eq_true] at h
    simp only [List.cons_append, containsSub, Bool.or_eq_true]
    rcases h with h | h
    · exact Or.inl (by simpa using leadsWith_append n (a :: s) t (by simpa using h))
    · exact Or.inr (ih h)

theorem containsSub_append_right (s t n : List Char) (h : containsSub t n = true) :
    containsSub (s ++ t) n = true := by
  induction s with
  | nil => simpa
  | cons a s ih =>
    simp only [List.cons_append, containsSub, Bool.or_eq_true]
    exact Or.inr ih

theorem strContains_append_left (s t pat : String) (h : strContains s pat = true) :
    strContains (s ++ t) pat = true := by
  unfold strContains at h ⊢
  rw [String.data_append]
  exact containsSub_append_left s.data t.data pat.data h

theorem strContains_append_right (s t pat : String) (h : strContains t pat = true) :
    strContains (s ++ t) pat = true := by
  unfold strContains at h ⊢
  rw [String.data_append]
  exact containsSub_append_right s.data t.data pat.data h

/-! ### The claims -/

/-- C2: for every command string or argument list and every outcome of the
external process, `run_command` never propagates an exception: it is a
total function that returns `true` exactly when the command exits
successfully, and on a non-zero exit or any other exception it logs an
error message and returns `false`. -/
theorem claim2_run_command_total :
    ∀ (cmd : String ⊕ List String) (shell : Bool) (res : CmdRes) (m : String),
    ((run_command cmd shell res).2 = true ↔ res = CmdRes.ok) ∧
    (res = CmdRes.err m →
      (run_command cmd shell res).2 = false ∧
      Eff.log "error" ("Command failed: " ++ m) ∈ (run_command cmd shell res).1) ∧
    (res = CmdRes.exn m →
      (run_command cmd shell res).2 = false ∧
      Eff.log "error" ("Unexpected error: " ++ m) ∈ (run_command cmd shell res).1) := by
  intro cmd shell res m
  refine ⟨?_, ?_, ?_⟩
  · cases res <;> simp [run_command, cmdOk]
  · intro hm; subst hm; simp [run_command, errLogs, cmdOk]
  · intro hm; subst hm; simp [run_command, errLogs, cmdOk]

/-- Witness for C2 at concrete commands and outcomes. -/
theorem claim2_run_command_total_witness :
    ((run_command (Sum.inr ["docker", "--version"]) false CmdRes.ok).2 = true) ∧
    ((run_command (Sum.inr ["docker", "info"]) false (CmdRes.err "boom")).2 = false ∧
      Eff.log "error" ("Command failed: " ++ "boom")
        ∈ (run_command (Sum.inr ["docker", "info"]) false (CmdRes.err "boom")).1) ∧
    ((run_command (Sum.inl "which htpasswd") true (CmdRes.exn "kaboom")).2 = false ∧
      Eff.log "error" ("Unexpected error: " ++ "kaboom")
        ∈ (run_command (Sum.inl "which htpasswd") true (CmdRes.exn "kaboom")).1) :=
  ⟨(claim2_run_command_total (Sum.inr ["docker", "--version"]) false CmdRes.ok "").1.mpr rfl,
   (claim2_run_command_total (Sum.inr ["docker", "info"]) false (CmdRes.err "boom") "boom").2.1 rfl,
   (claim2_run_command_total (Sum.inl "which htpasswd") true (CmdRes.exn "kaboom") "kaboom").2.2 rfl⟩

/-- Occurrence of a needle appearing in the middle factor of a
three-factor concatenation. -/
theorem strContains_middle (x y z pat : String) (h : strContains y pat = true) :
    strContains (x ++ y ++ z) pat = true :=
  strContains_append_left (x ++ y) z pat (strContains_append_right x y pat h)

/-- C4: `create_docker_compose` branches on exactly one 3-way enumerated
resolver choice.  The generated text is always
`head ++ resolver_config ++ tail`: for a choice other than "2"/"3" the
spliced block is empty (and the representative choice-1 document contains
no certresolver text at all); for "2" the Let\x27s Encrypt ACME lines
(email interpolated, storage, httpchallenge, certresolver=le) are
spliced; for "3" the Cloudflare lines plus an environment block carrying
CF_API_EMAIL and CF_DNS_API_TOKEN are spliced; head and tail are the
same for every choice. -/
theorem claim4_compose_template :
    ∀ (choice d e : String) (ce ct : Option String) (a : String),
    composeText choice d e ce ct a
      = composeHead ++ resolver_config choice e ce ct ++
        (composeTailA ++ d ++ composeTailB ++ a ++ composeTailC) ∧
    (choice ≠ "2" → choice ≠ "3" → resolver_config choice e ce ct = "") ∧
    resolver_config "2" e ce ct = leA ++ e ++ leB ∧
    resolver_config "3" e ce ct
      = cfA ++ e ++ cfB ++ pyOpt ce ++ cfC ++ pyOpt ct ++ "\n" ∧
    strContains leA "--certificatesresolvers.le.acme.email=" = true ∧
    strContains (composeText "2" d e ce ct a)
      "--certificatesresolvers.le.acme.storage=/letsencrypt/acme.json" = true ∧
    strContains (composeText "2" d e ce ct a)
      "--certificatesresolvers.le.acme.httpchallenge.entrypoint=web" = true ∧
    strContains (composeText "2" d e ce ct a)
      "--entrypoints.websecure.http.tls.certresolver=le" = true ∧
    strContains (composeText "3" d e ce ct a)
      "--certificatesresolvers.cf.acme.dnschallenge.provider=cloudflare" = true ∧
    strContains (composeText "3" d e ce ct a)
      "--entrypoints.websecure.http.tls.certresolver=cf" = true ∧
    strContains (composeText "3" d e ce ct a) "CF_API_EMAIL=" = true ∧
    strContains (composeText "3" d e ce ct a) "CF_DNS_API_TOKEN=" = true ∧
    strContains (composeText "1" "docker.localhost" "admin@docker.localhost"
      none none sampleAuth) "certresolver" = false := by
  intro choice d e ce ct a
  have h2 : resolver_config "2" e ce ct = leA ++ e ++ leB := by
    simp [resolver_config, leResolverConfig]
  have h3 : resolver_config "3" e ce ct
      = cfA ++ e ++ cfB ++ pyOpt ce ++ cfC ++ pyOpt ct ++ "\n" := by
    simp [resolver_config, cfResolverConfig]
  have hmidLe : ∀ pat, strContains leB pat = true →
      strContains (composeText "2" d e ce ct a) pat = true := by
    intro pat hp
    rw [composeText, h2]
    exact strContains_middle composeHead (leA ++ e ++ leB) (composeTail d a) pat
      (strContains_append_right (leA ++ e) leB pat hp)
  have hmidCfB : ∀ pat, strContains cfB pat = true →
      strContains (composeText "3" d e ce ct a) pat = true := by
    intro pat hp
    rw [composeText, h3]
    have s1 : strContains (cfA ++ e ++ cfB) pat = true :=
      strContains_append_right (cfA ++ e) cfB pat hp
    have s2 : strContains (cfA ++ e ++ cfB ++ pyOpt ce ++ cfC ++ pyOpt ct ++ "\n") pat
        = true :=
      strContains_append_left _ "\n" pat
        (strContains_append_left _ (pyOpt ct) pat
          (strContains_append_left _ cfC pat
            (strContains_append_left _ (pyOpt ce) pat s1)))
    exact strContains_middle composeHead _ (composeTail d a) pat s2
  have hmidCfC : ∀ pat, strContains cfC pat = true →
      strContains (composeText "3" d e ce ct a) pat = true := by
    intro pat hp
    rw [composeText, h3]
    have s1 : strContains (cfA ++ e ++ cfB ++ pyOpt ce ++ cfC) pat = true :=
      strContains_append_right (cfA ++ e ++ cfB ++ pyOpt ce) cfC pat hp
    have s2 : strContains (cfA ++ e ++ cfB ++ pyOpt ce ++ cfC ++ pyOpt ct ++ "\n") pat
        = true :=
      strContains_append_left _ "\n" pat (strContains_append_left _ (pyOpt ct) pat s1)
    exact strContains_middle composeHead _ (composeTail d a) pat s2
  refine ⟨?_, ?_, h2, h3, by decide, ?_, ?_, ?_, ?_, ?_, ?_, ?_, by decide⟩
  · simp [composeText, composeTail, String.append_assoc]
  · intro hne2 hne3
    simp [resolver_config, hne2, hne3]
  · exact hmidLe _ (by decide)
  · exact hmidLe _ (by decide)
  · exact hmidLe _ (by decide)
  · exact hmidCfB _ (by decide)
  · exact hmidCfB _ (by decide)
  · exact hmidCfB _ (by decide)
  · exact hmidCfC _ (by decide)

/-- Witness for C4: at choice "1" the spliced resolver block is empty. -/
theorem claim4_compose_template_witness :
    resolver_config "1" "admin@docker.localhost" none none = "" :=
  (claim4_compose_template "1" "docker.localhost" "admin@docker.localhost"
    none none sampleAuth).2.1 (by decide) (by decide)

/-- C5: when the test page is deployed (non-empty domain, test compose up
succeeded), `deploy_test_page` writes a shell script that sleeps 600
seconds, then runs `docker compose down` on the test compose file, then
deletes the test directory and the script itself; it marks it executable
and launches it detached via `nohup` with output discarded and then does
nothing further — no monitoring, cancellation path, or completion signal
(the trace is exactly the list below, ending at the 10-minute warning). -/
theorem claim5_test_page_removal : ∀ (d : String) (i : Inputs) (fs : FS),
    d ≠ "" → i.testUpRes = CmdRes.ok →
    deploy_test_page (some d) i fs =
      ([Eff.log "status" "Deploying test page (will auto-remove in 10 minutes)...",
        Eff.runArgs testUpArgs,
        Eff.log "success" ("Test page deployed at https://" ++ d),
        Eff.writeFile TEST_SCRIPT_PATH removalScript,
        Eff.runShell chmodCmd] ++ errLogs i.chmodRes ++
       [Eff.runShell nohupCmd] ++ errLogs i.nohupRes ++
       [Eff.log "warning" "Test page will auto-remove in 10 minutes"],
       fsWrite fs TEST_SCRIPT_PATH removalScript, .ok ()) ∧
    removalScript =
      "#!/bin/bash\nsleep 600\necho \"\"\necho \"⏰ Time is up! Removing test page...\"\n" ++
      "docker compose -f /tmp/traefik_test_page/docker-compose-test.yml down\n" ++
      "rm -rf /tmp/traefik_test_page\nrm -f /tmp/remove_test_page.sh\n" ++
      "echo \"✅ Test page removed successfully\"\n" ∧
    chmodCmd = "chmod +x /tmp/remove_test_page.sh" ∧
    nohupCmd = "nohup /tmp/remove_test_page.sh > /dev/null 2>&1 &" ∧
    testUpArgs =
      ["docker", "compose", "-f", "/tmp/traefik_test_page/docker-compose-test.yml",
       "up", "-d"] := by
  intro d i fs hd hok
  have hd2 : (d = "") = False := by simp [hd]
  refine ⟨?_, by decide, by decide, by decide, by decide⟩
  rw [deploy_test_page_some hd2]
  simp [testDeployEffs, testDeployFs, hok, errLogs_ok, cmdOk_ok]

/-- Witness for C5 at a concrete domain and an all-success run. -/
theorem claim5_test_page_removal_witness :
    deploy_test_page (some "docker.localhost") okInputs [] =
      ([Eff.log "status" "Deploying test page (will auto-remove in 10 minutes)...",
        Eff.runArgs testUpArgs,
        Eff.log "success" ("Test page deployed at https://" ++ "docker.localhost"),
        Eff.writeFile TEST_SCRIPT_PATH removalScript,
        Eff.runShell chmodCmd] ++ errLogs okInputs.chmodRes ++
       [Eff.runShell nohupCmd] ++ errLogs okInputs.nohupRes ++
       [Eff.log "warning" "Test page will auto-remove in 10 minutes"],
       fsWrite [] TEST_SCRIPT_PATH removalScript, .ok ()) :=
  (claim5_test_page_removal "docker.localhost" okInputs [] (by decide) rfl).1

/-- C7: `setup_docker_network` issues `docker network create traefik`
exactly when the text "traefik" does not occur in the `docker network ls`
output; when it does occur, the function only logs a warning after the
listing and issues no create command. -/
theorem claim7_network_create_iff : ∀ (i : Inputs) (fs : FS),
    (setup_docker_network i fs).1 = netEffs i ∧
    (setup_docker_network i fs).2 = (fs, .ok ()) ∧
    (Eff.runArgs networkCreateArgs ∈ (setup_docker_network i fs).1 ↔
      strContains i.networkLsOut "traefik" = false) ∧
    (strContains i.networkLsOut "traefik" = true →
      (setup_docker_network i fs).1 =
        [Eff.log "status" "Setting up Docker network...", Eff.runArgs networkLsArgs,
         Eff.log "warning" "Docker network \x27traefik\x27 already exists"]) := by
  intro i fs
  have heq := setup_docker_network_eq i fs
  refine ⟨by rw [heq], by rw [heq], ?_, ?_⟩
  · rw [heq]
    by_cases hc : strContains i.networkLsOut "traefik" = false
    · simp [netEffs, hc, networkCreateArgs, networkLsArgs]
    · have hc2 : strContains i.networkLsOut "traefik" = true := by
        simpa using hc
      constructor
      · intro hmem
        simp [netEffs, hc2, networkCreateArgs, networkLsArgs] at hmem
      · intro hfalse
        rw [hfalse] at hc2
        cases hc2
  · intro hc
    rw [heq]
    simp [netEffs, hc]

/-- Witness for C7: with "traefik" present in the listing only the
warning is printed. -/
theorem claim7_network_create_iff_witness :
    (setup_docker_network netPresentInputs []).1 =
      [Eff.log "status" "Setting up Docker network...", Eff.runArgs networkLsArgs,
       Eff.log "warning" "Docker network \x27traefik\x27 already exists"] :=
  (claim7_network_create_iff netPresentInputs []).2.2.2 (by decide)

/-- C1 counterexample: the claim says the interactive-input step precedes
the Docker-validation step in every run of `main`; in the concrete
all-success run `okInputs` the `docker --version` check sits at index 2
of the trace while the first interactive prompt sits at index 9, so the
claimed order is false. -/
theorem claim1_order_counterexample :
    (mainTrace okInputs).findIdx isPrompt = 9 ∧
    (mainTrace okInputs).findIdx isDockerVersionCheck = 2 ∧
    9 < (mainTrace okInputs).length ∧
    ¬ ((mainTrace okInputs).findIdx isPrompt
        < (mainTrace okInputs).findIdx isDockerVersionCheck) := by
  refine ⟨by decide, by decide, by decide, by decide⟩

/-- C1 amended: the script is one flat procedure, but the Docker
validation comes first: every run of `main` starts with the startup log,
the check log and the `docker --version` invocation, and every
interactive prompt in the trace is preceded by that Docker-validation
event. -/
theorem claim1_order_amended : ∀ i : Inputs,
    (mainTrace i).take 3 =
      [Eff.log "status" "Starting automated Traefik setup...",
       Eff.log "status" "Checking Docker installation...",
       Eff.runArgs ["docker", "--version"]] ∧
    (∀ k, isPrompt ((mainTrace i).getD k (Eff.log "" "")) = true →
      ∃ j, j < k ∧
        isDockerVersionCheck ((mainTrace i).getD j (Eff.log "" "")) = true) := by
  intro i
  have htake : (mainTrace i).take 3 =
      [Eff.log "status" "Starting automated Traefik setup...",
       Eff.log "status" "Checking Docker installation...",
       Eff.runArgs ["docker", "--version"]] := by
    simp [mainTrace, Script.main, check_docker, mseq_assoc, mseq_emit_apply,
      mseq_emits_apply, run_command, cmdEff]
  obtain ⟨rest, hrest⟩ : ∃ rest, mainTrace i =
      Eff.log "status" "Starting automated Traefik setup..." ::
      Eff.log "status" "Checking Docker installation..." ::
      Eff.runArgs ["docker", "--version"] :: rest := by
    refine ⟨(mainTrace i).drop 3, ?_⟩
    conv_lhs => rw [← List.take_append_drop 3 (mainTrace i)]
    rw [htake]
    rfl
  refine ⟨htake, ?_⟩
  intro k hpk
  have hk3 : 2 < k := by
    by_contra hle
    push_neg at hle
    interval_cases k <;> simp [hrest, isPrompt] at hpk
  exact ⟨2, hk3, by simp [hrest, isDockerVersionCheck]⟩

/-- Witness for C1 amended at the all-success run: index 9 is a prompt
and a strictly earlier `docker --version` event exists. -/
theorem claim1_order_amended_witness :
    ∃ j, j < 9 ∧
      isDockerVersionCheck ((mainTrace okInputs).getD j (Eff.log "" "")) = true :=
  (claim1_order_amended okInputs).2 9 (by decide)

/-- C3: each of the four fatal preconditions exits the process with the
non-zero status 1, directly after logging the corresponding error, with
no subsequent step in the trace: a failing `docker --version`, a failing
`docker info`, a blank domain entered for an ACME choice ("2"/"3"), and
a missing `htpasswd` binary.  Each conclusion gives the complete trace,
which ends with the `exitProc 1` event. -/
theorem claim3_fatal_exits : ∀ i : Inputs,
    (cmdOk i.dockerVersionRes = false →
      Script.main i [] = (mainVerFailEffs i, [], .error 1)) ∧
    (i.dockerVersionRes = .ok → cmdOk i.dockerInfoRes = false →
      Script.main i [] = (mainInfoFailEffs i, [], .error 1)) ∧
    (i.dockerVersionRes = .ok → i.dockerInfoRes = .ok → acmeChoice i →
      pyStrip i.domainInput = "" →
      Script.main i [] = (mainDomainFailEffs, [], .error 1)) ∧
    (i.dockerVersionRes = .ok → i.dockerInfoRes = .ok →
      (acmeChoice i → pyStrip i.domainInput ≠ "") →
      cmdOk i.whichHtpasswdRes = false →
      Script.main i [] = (mainHtpFailEffs i, [], .error 1)) :=
  fun i =>
    ⟨main_verFail i,
     main_infoFail i,
     fun hv hi hac hd => main_domainFail i hv hi hac hd,
     fun hv hi h hw => main_htpFail i hv hi h hw⟩

/-- Witness for C3: the four fatal runs at concrete inputs. -/
theorem claim3_fatal_exits_witness :
    Script.main verFailInputs [] = (mainVerFailEffs verFailInputs, [], .error 1) ∧
    Script.main infoFailInputs [] = (mainInfoFailEffs infoFailInputs, [], .error 1) ∧
    Script.main domainFailInputs [] = (mainDomainFailEffs, [], .error 1) ∧
    Script.main htpFailInputs [] = (mainHtpFailEffs htpFailInputs, [], .error 1) :=
  ⟨(claim3_fatal_exits verFailInputs).1 (by decide),
   (claim3_fatal_exits infoFailInputs).2.1 rfl (by decide),
   (claim3_fatal_exits domainFailInputs).2.2.1 rfl rfl (by decide) (by decide),
   (claim3_fatal_exits htpFailInputs).2.2.2 rfl rfl (by decide) (by decide)⟩

/-- C6 (code bug): in the all-success run `okInputs` the resolver choice
is "1" and the user is never asked for a test domain (the test-domain
prompt of the dead function `get_user_input` never appears in the
trace), yet `main` — which passes the always-non-empty resolver `domain`
instead of an optional test domain — still writes the test compose file,
deploys the test page and schedules the timed removal script. -/
theorem claim6_test_page_unconditional :
    mainExit okInputs = .ok () ∧
    ¬ (Eff.prompt "Enter test domain/subdomain (optional, e.g., test.yourdomain.com): "
        ∈ mainTrace okInputs) ∧
    Eff.writeFile (TEST_COMPOSE_PATH ++ "/docker-compose-test.yml")
      (testComposeContent "docker.localhost") ∈ mainTrace okInputs ∧
    Eff.runArgs testUpArgs ∈ mainTrace okInputs ∧
    Eff.writeFile TEST_SCRIPT_PATH removalScript ∈ mainTrace okInputs := by
  refine ⟨rfl, by decide, by decide, by decide, by decide⟩

/-- C8: in every run that reaches deployment (no fatal exit), the
directory creations, the OpenSSL certificate generation, the htpasswd
write, the dynamic TLS write and the compose write all occur strictly
before the `docker compose up -d` invocation, and the htpasswd file is
written before `create_docker_compose` reads it: the listed events form
a sublist (in order) of the trace of `main`. -/
theorem claim8_paths_before_deploy : ∀ i : Inputs,
    i.dockerVersionRes = .ok → i.dockerInfoRes = .ok → i.whichHtpasswdRes = .ok →
    (acmeChoice i → pyStrip i.domainInput ≠ "") →
    List.Sublist
      [Eff.mkdir TRAEFIK_BASE_PATH, Eff.mkdir TRAEFIK_CERTS_PATH,
       Eff.mkdir TRAEFIK_DYNAMIC_PATH,
       Eff.runShell (opensslCmd (domainOf i)),
       Eff.writeFile HTPASSWD_FILE (storedHash i.htpasswdRaw),
       Eff.writeFile TLS_FILE tlsContent,
       Eff.readFile HTPASSWD_FILE,
       Eff.writeFile COMPOSE_FILE (composeWriteContent i),
       Eff.runArgs composeUpArgs]
      (mainTrace i) := by
  intro i hv hi hw h
  have hmain : mainTrace i = mainOkEffs i := by
    simp [mainTrace, main_ok i hv hi hw h]
  rw [hmain]
  have sdir : List.Sublist
      [Eff.mkdir TRAEFIK_BASE_PATH, Eff.mkdir TRAEFIK_CERTS_PATH,
       Eff.mkdir TRAEFIK_DYNAMIC_PATH] dirEffs :=
    (((List.nil_sublist _).cons₂ _).cons₂ _).cons₂ _
  have scert : List.Sublist [Eff.runShell (opensslCmd (domainOf i))]
      (certEffs (domainOf i) i) :=
    (((List.nil_sublist _).cons₂ _).cons _).append (List.nil_sublist _)
  have shtp : List.Sublist [Eff.writeFile HTPASSWD_FILE (storedHash i.htpasswdRaw)]
      (htpEffs i) :=
    (((((((List.nil_sublist _).cons₂ _).cons _).cons _).cons _).cons _).cons _)
  have stls : List.Sublist [Eff.writeFile TLS_FILE tlsContent] tlsEffs :=
    (List.nil_sublist _).cons₂ _
  have scomp : List.Sublist
      [Eff.readFile HTPASSWD_FILE, Eff.writeFile COMPOSE_FILE (composeWriteContent i)]
      (composeEffs i) :=
    ((List.nil_sublist _).cons₂ _).cons₂ _
  have sdep : List.Sublist [Eff.runArgs composeUpArgs] (deployEffs i) :=
    (((List.nil_sublist _).cons₂ _).cons _).append (List.nil_sublist _)
  exact ((((((((((((List.nil_sublist _).append sdir).append
    (List.nil_sublist (askEffs i))).append scert).append shtp).append stls).append
    scomp).append (List.nil_sublist (testEffs (domainOf i)))).append
    (List.nil_sublist (netEffs i))).append sdep).append
    (List.nil_sublist (testDeployEffs (domainOf i) i))).append
    (List.nil_sublist finalEffs))

/-- Witness for C8 at the all-success run. -/
theorem claim8_paths_before_deploy_witness :
    List.Sublist
      [Eff.mkdir TRAEFIK_BASE_PATH, Eff.mkdir TRAEFIK_CERTS_PATH,
       Eff.mkdir TRAEFIK_DYNAMIC_PATH,
       Eff.runShell (opensslCmd (domainOf okInputs)),
       Eff.writeFile HTPASSWD_FILE (storedHash okInputs.htpasswdRaw),
       Eff.writeFile TLS_FILE tlsContent,
       Eff.readFile HTPASSWD_FILE,
       Eff.writeFile COMPOSE_FILE (composeWriteContent okInputs),
       Eff.runArgs composeUpArgs]
      (mainTrace okInputs) :=
  claim8_paths_before_deploy okInputs rfl rfl rfl (by decide)

/-- C9: the network names used by the script are mutually inconsistent:
`setup_docker_network` ensures a network named `traefik` exists, but the
Traefik compose file attaches the `traefik` service only to a network
named `proxy` (service networks block, provider network option, and the
trailing networks section all say `proxy`, and no `- traefik` attachment
occurs in the service template), while the test compose attaches
`nginx-test` to an external network named `traefik` and references a
certresolver named `letsencrypt` that no generated configuration defines
(each generated document for choices "1"/"2"/"3" lacks the text
`certificatesresolvers.letsencrypt`; the defined resolvers are `le` and
`cf`). -/
theorem claim9_wiring_inconsistent :
    ∀ (i : Inputs) (fs : FS) (choice d e a : String) (ce ct : Option String),
    networkCreateArgs = ["docker", "network", "create", "traefik"] ∧
    (strContains i.networkLsOut "traefik" = false →
      Eff.runArgs networkCreateArgs ∈ (setup_docker_network i fs).1) ∧
    composeText choice d e ce ct a
      = composeHead ++ resolver_config choice e ce ct ++
        (composeTailA ++ d ++ composeTailB ++ a ++ composeTailC) ∧
    strContains composeHead "networks:\n      - proxy\n    ports:" = true ∧
    strContains composeHead "--providers.docker.network=proxy" = true ∧
    strContains composeTailC "networks:\n  proxy:\n    name: proxy" = true ∧
    strContains composeHead "- traefik" = false ∧
    testComposeContent d = tcA ++ d ++ tcB ∧
    strContains tcA "networks:\n      - traefik" = true ∧
    strContains tcB "certresolver=letsencrypt" = true ∧
    strContains tcB "networks:\n  traefik:\n    external: true\n    name: traefik" = true ∧
    strContains (composeText "1" "docker.localhost" "admin@docker.localhost"
      none none sampleAuth) "certificatesresolvers.letsencrypt" = false ∧
    strContains (composeText "2" "example.com" "a@example.com"
      none none sampleAuth) "certificatesresolvers.letsencrypt" = false ∧
    strContains (composeText "3" "example.com" "a@example.com"
      (some "cf@example.com") (some "token") sampleAuth)
      "certificatesresolvers.letsencrypt" = false := by
  intro i fs choice d e a ce ct
  refine ⟨rfl, ?_, ?_, by decide, by decide, by decide, by decide, ?_,
    by decide, by decide, by decide, by decide, by decide, by decide⟩
  · intro hc
    rw [setup_docker_network_eq i fs]
    simp [netEffs, hc]
  · simp [composeText, composeTail, String.append_assoc]
  · simp [testComposeContent]

/-- Witness for C9: in the all-success run the create command for the
network named `traefik` is issued. -/
theorem claim9_wiring_inconsistent_witness :
    Eff.runArgs networkCreateArgs ∈ (setup_docker_network okInputs []).1 :=
  (claim9_wiring_inconsistent okInputs [] "1" "docker.localhost"
    "admin@docker.localhost" sampleAuth none none).2.1 (by decide)

/-- C10: the stored Basic Auth hash is the raw `htpasswd` output with
every dollar sign doubled (dollar count doubles, all other characters
are untouched) and surrounding whitespace stripped; `create_htpasswd`
stores exactly `storedHash raw` in the htpasswd file, and
`create_docker_compose` splices exactly that stored string — unchanged,
because stripping is idempotent — into the
`dashboard-auth.basicauth.users` label slot of the compose document. -/
theorem claim10_auth_hash : ∀ (i : Inputs) (fs : FS) (choice d e : String)
    (ce ct : Option String) (s : String),
    i.whichHtpasswdRes = .ok →
    ((sedDoubleDollar s).data.count '$' = 2 * s.data.count '$') ∧
    ((sedDoubleDollar s).data.filter (fun c => c != '$')
      = s.data.filter (fun c => c != '$')) ∧
    storedHash s = pyStrip (sedDoubleDollar s) ∧
    pyStrip (storedHash i.htpasswdRaw) = storedHash i.htpasswdRaw ∧
    create_htpasswd i fs
      = (htpEffs i, fsWrite fs HTPASSWD_FILE (storedHash i.htpasswdRaw), .ok ()) ∧
    create_docker_compose choice d e ce ct
        (fsWrite fs HTPASSWD_FILE (storedHash i.htpasswdRaw)) =
      ([Eff.readFile HTPASSWD_FILE,
        Eff.writeFile COMPOSE_FILE
          (composeHead ++ resolver_config choice e ce ct ++
            (composeTailA ++ d ++ composeTailB ++ storedHash i.htpasswdRaw ++
             composeTailC)),
        Eff.log "ok" ("Docker Compose file created at " ++ COMPOSE_FILE)],
       fsWrite (fsWrite fs HTPASSWD_FILE (storedHash i.htpasswdRaw)) COMPOSE_FILE
         (composeHead ++ resolver_config choice e ce ct ++
           (composeTailA ++ d ++ composeTailB ++ storedHash i.htpasswdRaw ++
            composeTailC)),
       .ok ()) := by
  intro i fs choice d e ce ct s hw
  refine ⟨sedList_count s.data, sedList_filter s.data, rfl, storedHash_stripped _,
    create_htpasswd_ok i hw fs, ?_⟩
  rw [create_docker_compose_read choice d e ce ct
    (fsRead_hit fs HTPASSWD_FILE (storedHash i.htpasswdRaw))]
  simp [composeText, composeTail, String.append_assoc, storedHash_stripped]

/-- Witness for C10: stripping the stored hash of a concrete raw
`htpasswd` output changes nothing. -/
theorem claim10_auth_hash_witness :
    pyStrip (storedHash okInputs.htpasswdRaw) = storedHash okInputs.htpasswdRaw :=
  (claim10_auth_hash okInputs [] "1" "docker.localhost" "admin@docker.localhost"
    none none "user:$1$ab$cd\n" rfl).2.2.2.1
